import Mathlib

/-!
Shallow embedding of the pharm-lite-dash stock ledger.

The authoritative write path of the repository lives in the SQL migration
(tables produtos, compras, vendas with their CHECK and FOREIGN KEY
constraints, and the triggers atualizar_estoque_compra and
atualizar_estoque_venda), with client-side validation in the React pages
(vendaSchema, compraSchema, produtoSchema, handleSubmit, handleDelete,
getStatusBadge).

Modelling conventions:
- uuids become Nat keys; the produtos table (PRIMARY KEY id) is a partial
  map Nat to Produto; compras and vendas are append-ordered lists of rows.
- DECIMAL(10,2) money values are exact integer cents (Int); quantities are
  Int with the table CHECK constraints modelled explicitly.
- DATE values and CURRENT_DATE are day ordinals (Int).
- each INSERT together with its trigger is one atomic step returning
  Except DBError DB; any constraint violation aborts the whole step and
  the database is unchanged.  The three constraint classes are named:
  a CHECK on the inserted row (quantidade > 0, preco_unitario >= 0) is
  DBError.invalidInput, a FOREIGN KEY violation is DBError.notFound, and
  a violation of the produtos CHECK (quantidade >= 0) raised by the
  trigger's UPDATE is DBError.insufficientStock.
- text columns (nome, codigo, descricao, observacoes) and timestamps play
  no role in any claim and are omitted from the rows.
-/

namespace PharmLite

/-- Row of the produtos table restricted to the ledger-relevant columns:
quantidade, quantidade_minima, preco_compra, preco_venda (cents) and
validade (day ordinal).  Table CHECKs: quantidade >= 0, preco_compra >= 0,
preco_venda >= 0. -/
structure Produto where
  quantidade : Int
  quantidade_minima : Int
  preco_compra : Int
  preco_venda : Int
  validade : Int
deriving DecidableEq, Repr

/-- Insert payload for the compras table: produto_id and fornecedor_id are
nullable columns (types.ts: produto_id?: string | null,
fornecedor_id?: string | null). -/
structure CompraReq where
  produto_id : Option Nat
  fornecedor_id : Option Nat
  quantidade : Int
  preco_unitario : Int
deriving DecidableEq, Repr

/-- Insert payload for the vendas table. -/
structure VendaReq where
  produto_id : Option Nat
  quantidade : Int
  preco_unitario : Int
deriving DecidableEq, Repr

/-- Stored row of compras: total is the generated column
quantidade * preco_unitario. -/
structure CompraRow where
  produto_id : Option Nat
  fornecedor_id : Option Nat
  quantidade : Int
  preco_unitario : Int
  total : Int
deriving DecidableEq, Repr

/-- Stored row of vendas: total is the generated column, lucro is the
nullable column filled by the trigger atualizar_estoque_venda. -/
structure VendaRow where
  produto_id : Option Nat
  quantidade : Int
  preco_unitario : Int
  total : Int
  lucro : Option Int
deriving DecidableEq, Repr

/-- Database state: the produtos table as a key-addressed partial map, and
the two event tables in insertion order. -/
structure DB where
  produtos : Nat → Option Produto
  compras : List CompraRow
  vendas : List VendaRow

/-- Error classes of an aborted insert, named after the violated
constraint: invalidInput for a CHECK on the inserted row, notFound for a
FOREIGN KEY violation, insufficientStock for the produtos CHECK
(quantidade >= 0) violated by a trigger UPDATE. -/
inductive DBError where
  | invalidInput
  | notFound
  | insufficientStock
deriving DecidableEq, Repr

/-- Pointwise update of the produtos map at one key. -/
def setProduto (f : Nat → Option Produto) (pid : Nat) (p : Produto) :
    Nat → Option Produto :=
  fun n => if n = pid then some p else f n

/-- INSERT INTO compras followed by the AFTER INSERT trigger
atualizar_estoque_compra.  Constraint order follows the engine: the row
CHECKs (quantidade > 0, preco_unitario >= 0), then the FOREIGN KEY on
produto_id (null passes), then the trigger UPDATE
quantidade := quantidade + NEW.quantidade (which updates no row when
produto_id is null and must satisfy the produtos CHECK quantidade >= 0). -/
def insertCompra (req : CompraReq) (db : DB) : Except DBError DB :=
  if req.quantidade ≤ 0 then .error .invalidInput
  else if req.preco_unitario < 0 then .error .invalidInput
  else
    let row : CompraRow :=
      ⟨req.produto_id, req.fornecedor_id, req.quantidade, req.preco_unitario,
        req.quantidade * req.preco_unitario⟩
    match req.produto_id with
    | none => .ok { db with compras := db.compras ++ [row] }
    | some pid =>
      match db.produtos pid with
      | none => .error .notFound
      | some p =>
        if p.quantidade + req.quantidade < 0 then .error .insufficientStock
        else
          .ok { db with
                produtos := setProduto db.produtos pid
                  { p with quantidade := p.quantidade + req.quantidade },
                compras := db.compras ++ [row] }

/-- INSERT INTO vendas with the BEFORE INSERT trigger
atualizar_estoque_venda.  The trigger runs first: it reads preco_compra of
the referenced product (null when there is no such row, making lucro
null), sets NEW.lucro := (NEW.preco_unitario - preco_compra) *
NEW.quantidade, and issues UPDATE quantidade := quantidade -
NEW.quantidade, whose produtos CHECK (quantidade >= 0) aborts the whole
transaction when the stock would go negative.  Only then the row itself is
checked (quantidade > 0, preco_unitario >= 0, FOREIGN KEY). -/
def insertVenda (req : VendaReq) (db : DB) : Except DBError DB :=
  match req.produto_id with
  | none =>
    if req.quantidade ≤ 0 then .error .invalidInput
    else if req.preco_unitario < 0 then .error .invalidInput
    else
      .ok { db with
            vendas := db.vendas ++
              [⟨none, req.quantidade, req.preco_unitario,
                 req.quantidade * req.preco_unitario, none⟩] }
  | some pid =>
    match db.produtos pid with
    | none =>
      if req.quantidade ≤ 0 then .error .invalidInput
      else if req.preco_unitario < 0 then .error .invalidInput
      else .error .notFound
    | some p =>
      if p.quantidade - req.quantidade < 0 then .error .insufficientStock
      else if req.quantidade ≤ 0 then .error .invalidInput
      else if req.preco_unitario < 0 then .error .invalidInput
      else
        .ok { db with
              produtos := setProduto db.produtos pid
                { p with quantidade := p.quantidade - req.quantidade },
              vendas := db.vendas ++
                [⟨some pid, req.quantidade, req.preco_unitario,
                   req.quantidade * req.preco_unitario,
                   some ((req.preco_unitario - p.preco_compra) * req.quantidade)⟩] }

/-- Validation of a product payload: produtoSchema requires non-negative
integer quantidade and quantidade_minima and non-negative prices, matching
the table CHECKs. -/
def produtoValido (p : Produto) : Bool :=
  0 ≤ p.quantidade && 0 ≤ p.quantidade_minima &&
    0 ≤ p.preco_compra && 0 ≤ p.preco_venda

/-- Product creation (Produtos page handleSubmit, insert branch): validate
against produtoSchema, fail on a duplicate key, otherwise add the row. -/
def insertProduto (pid : Nat) (p : Produto) (db : DB) : Except DBError DB :=
  if produtoValido p then
    match db.produtos pid with
    | some _ => .error .invalidInput
    | none => .ok { db with produtos := setProduto db.produtos pid p }
  else .error .invalidInput

/-- Product update (Produtos page handleSubmit, update branch): validate
against produtoSchema, then UPDATE produtos SET every payload column
(including quantidade) WHERE id = pid; updating a missing id touches no
row and is not an error. -/
def updateProduto (pid : Nat) (p : Produto) (db : DB) : Except DBError DB :=
  if produtoValido p then
    match db.produtos pid with
    | none => .ok db
    | some _ => .ok { db with produtos := setProduto db.produtos pid p }
  else .error .invalidInput

/-- Product deletion (Produtos page handleDelete): DELETE FROM produtos
WHERE id = pid.  The foreign keys compras.produto_id and vendas.produto_id
are declared ON DELETE CASCADE, so every compras and vendas row referencing
the product is deleted with it. -/
def deleteProduto (pid : Nat) (db : DB) : Except DBError DB :=
  .ok { produtos := fun n => if n = pid then none else db.produtos n,
        compras := db.compras.filter (fun c => c.produto_id != some pid),
        vendas := db.vendas.filter (fun v => v.produto_id != some pid) }

/-- The operations any caller can issue against the database. -/
inductive Op where
  | compra (req : CompraReq)
  | venda (req : VendaReq)
  | novoProduto (pid : Nat) (p : Produto)
  | editProduto (pid : Nat) (p : Produto)
  | removeProduto (pid : Nat)
deriving DecidableEq, Repr

/-- Dispatch of one operation. -/
def step (db : DB) : Op → Except DBError DB
  | .compra req => insertCompra req db
  | .venda req => insertVenda req db
  | .novoProduto pid p => insertProduto pid p db
  | .editProduto pid p => updateProduto pid p db
  | .removeProduto pid => deleteProduto pid db

/-- Running one operation: a failed step leaves the database exactly as it
was (the whole transaction rolls back). -/
def applyOp (db : DB) (op : Op) : DB :=
  match step db op with
  | .ok db2 => db2
  | .error _ => db

/-- Recognizer for the two ledger events (compras and vendas inserts). -/
def Op.isEvent : Op → Bool
  | .compra _ => true
  | .venda _ => true
  | _ => false

/-- Recognizer for product deletion. -/
def Op.isRemove : Op → Bool
  | .removeProduto _ => true
  | _ => false

/-- Boolean success test for a step result. -/
def stepOk {α : Type} (r : Except DBError α) : Bool :=
  match r with
  | .ok _ => true
  | .error _ => false

/-- The four alert states of the spec; the Produtos page renders them as
the Estoque Baixo badge, the Vencendo badge, the Vencido badge, and no
badge at all. -/
inductive AlertState where
  | ok
  | low_stock
  | expiring_soon
  | expired
deriving DecidableEq, Repr

/-- Alert classification getStatusBadge of the Produtos page, over a
product row and the current day.  diasParaVencer is the ceiling of the
millisecond difference between the expiry date (midnight) and now,
divided by one day; for day ordinals this is validade - hoje.  Branch
order as in the source: low stock first, then 0 <= d <= 30 (Vencendo),
then d < 0 (Vencido), else no badge. -/
def getStatusBadge (p : Produto) (hoje : Int) : AlertState :=
  let diasParaVencer := p.validade - hoje
  if p.quantidade ≤ p.quantidade_minima then .low_stock
  else if diasParaVencer ≤ 30 ∧ 0 ≤ diasParaVencer then .expiring_soon
  else if diasParaVencer < 0 then .expired
  else .ok

/-- Modelled from the spec: the four-step reference definition of Classify
in the order the spec states it: low_stock when quantity is at or below
the minimum, otherwise expired when the expiry date is strictly before
today, otherwise expiring_soon when the expiry date is within 30 days,
otherwise ok. -/
def classifySpec (p : Produto) (hoje : Int) : AlertState :=
  if p.quantidade ≤ p.quantidade_minima then .low_stock
  else if p.validade < hoje then .expired
  else if p.validade ≤ hoje + 30 then .expiring_soon
  else .ok

/-- Sum of the quantidade column over the compras rows of one product. -/
def sumComprasProduto (pid : Nat) : List CompraRow → Int
  | [] => 0
  | c :: rest =>
    (if c.produto_id = some pid then c.quantidade else 0) +
      sumComprasProduto pid rest

/-- Sum of the quantidade column over the vendas rows of one product. -/
def sumVendasProduto (pid : Nat) : List VendaRow → Int
  | [] => 0
  | v :: rest =>
    (if v.produto_id = some pid then v.quantidade else 0) +
      sumVendasProduto pid rest

/-- Ledger invariant for one product: its stored quantity equals the sum
of its committed purchase quantities minus the sum of its committed sale
quantities, and is non-negative. -/
def StockInv (pid : Nat) (db : DB) : Prop :=
  ∀ p, db.produtos pid = some p →
    p.quantidade =
        sumComprasProduto pid db.compras - sumVendasProduto pid db.vendas ∧
      0 ≤ p.quantidade

theorem take_self_of_length {α : Type} (l : List α) : l.take l.length = l := by
  induction l with
  | nil => rfl
  | cons a rest ih => simp [ih]

theorem take_left_of_append {α : Type} (l l2 : List α) :
    (l ++ l2).take l.length = l := by
  induction l with
  | nil => rfl
  | cons a rest ih => simp [ih]

theorem sumComprasProduto_append (pid : Nat) (l1 l2 : List CompraRow) :
    sumComprasProduto pid (l1 ++ l2) =
      sumComprasProduto pid l1 + sumComprasProduto pid l2 := by
  induction l1 with
  | nil => simp [sumComprasProduto]
  | cons c rest ih => simp [sumComprasProduto, ih]; ring

theorem sumVendasProduto_append (pid : Nat) (l1 l2 : List VendaRow) :
    sumVendasProduto pid (l1 ++ l2) =
      sumVendasProduto pid l1 + sumVendasProduto pid l2 := by
  induction l1 with
  | nil => simp [sumVendasProduto]
  | cons v rest ih => simp [sumVendasProduto, ih]; ring

theorem updateProduto_preserves_vendas (db : DB) (pid : Nat) (p : Produto) :
    (applyOp db (.editProduto pid p)).vendas = db.vendas := by
  by_cases hv : produtoValido p
  · cases hl : db.produtos pid with
    | none => simp [applyOp, step, updateProduto, hv, hl]
    | some p2 => simp [applyOp, step, updateProduto, hv, hl]
  · simp [applyOp, step, updateProduto, hv]

/-- Claim C4: for every product snapshot and current date, the alert
classifier of the source (getStatusBadge: low-stock badge first, then the
Vencendo badge when 0 <= days-to-expiry <= 30, then the Vencido badge,
else no badge) returns exactly the result of the four-step reference
definition in the spec's order: low_stock if quantity <= minimum,
otherwise expired if the expiry date is before today, otherwise
expiring_soon if the expiry date is within 30 days, otherwise ok. -/
theorem classify_matches_four_step (p : Produto) (hoje : Int) :
    getStatusBadge p hoje = classifySpec p hoje := by
  simp only [getStatusBadge, classifySpec]
  split_ifs <;> first | rfl | omega

/-- Claim C1: a sale request whose quantity exceeds the product's on-hand
quantity at commit time is rejected as insufficient stock (the produtos
CHECK quantidade >= 0 aborts the trigger's decrement), and the aborted
transaction performs no mutation at all: the database, hence the
product's quantity and the vendas log, is exactly as before. -/
theorem recordSale_insufficient_stock_no_mutation (db : DB) (vid : Nat)
    (p : Produto) (q preco : Int) (hp : db.produtos vid = some p)
    (hwf : 0 ≤ p.quantidade) (hpr : 0 ≤ preco) (hq : p.quantidade < q) :
    insertVenda ⟨some vid, q, preco⟩ db = .error .insufficientStock ∧
      applyOp db (.venda ⟨some vid, q, preco⟩) = db := by
  have h1 : insertVenda ⟨some vid, q, preco⟩ db = .error .insufficientStock := by
    simp only [insertVenda, hp]
    rw [if_pos (by omega)]
  exact ⟨h1, by simp [applyOp, step, h1]⟩

theorem recordSale_insufficient_stock_no_mutation_witness :
    insertVenda ⟨some 1, 100, 2000⟩
        ⟨fun n => if n = 1 then some ⟨5, 10, 1200, 2000, 1000⟩ else none, [], []⟩ =
        .error .insufficientStock ∧
      applyOp
        ⟨fun n => if n = 1 then some ⟨5, 10, 1200, 2000, 1000⟩ else none, [], []⟩
        (.venda ⟨some 1, 100, 2000⟩) =
        ⟨fun n => if n = 1 then some ⟨5, 10, 1200, 2000, 1000⟩ else none, [], []⟩ :=
  recordSale_insufficient_stock_no_mutation
    ⟨fun n => if n = 1 then some ⟨5, 10, 1200, 2000, 1000⟩ else none, [], []⟩
    1 ⟨5, 10, 1200, 2000, 1000⟩ 100 2000 (by simp) (by decide) (by decide)
    (by decide)

/-- Claim C10: a purchase row whose produto_id is null passes every
constraint (the column is nullable and a null foreign key is not
checked), is committed to the compras log with its generated total, and
the trigger's UPDATE matches no row, so no product's quantity changes. -/
theorem purchase_null_product_committed (db : DB) (q preco : Int)
    (hq : 0 < q) (hpr : 0 ≤ preco) :
    insertCompra ⟨none, none, q, preco⟩ db =
        .ok { db with compras := db.compras ++ [⟨none, none, q, preco, q * preco⟩] } ∧
      (applyOp db (.compra ⟨none, none, q, preco⟩)).produtos = db.produtos := by
  have h1 : insertCompra ⟨none, none, q, preco⟩ db =
      .ok { db with compras := db.compras ++ [⟨none, none, q, preco, q * preco⟩] } := by
    simp only [insertCompra]
    rw [if_neg (by omega), if_neg (by omega)]
  exact ⟨h1, by simp [applyOp, step, h1]⟩

theorem purchase_null_product_committed_witness :
    insertCompra ⟨none, none, 5, 100⟩
        ⟨fun _ => none, [], []⟩ =
        .ok { produtos := fun _ => none,
              compras := [⟨none, none, 5, 100, 500⟩], vendas := [] } ∧
      (applyOp ⟨fun _ => none, [], []⟩ (.compra ⟨none, none, 5, 100⟩)).produtos =
        (⟨fun _ => none, [], []⟩ : DB).produtos :=
  purchase_null_product_committed ⟨fun _ => none, [], []⟩ 5 100 (by decide)
    (by decide)

/-- Claim C3: a committed sale of quantity q at unit price preco against a
product whose purchase cost is p.preco_compra at commit time stores
total = q * preco and lucro = (preco - p.preco_compra) * q in the new
vendas row, computed once by the BEFORE INSERT trigger; and a later
product update (the only operation that changes preco_compra) leaves the
vendas log, hence every stored lucro, untouched. -/
theorem sale_total_profit_at_commit (db : DB) (vid : Nat) (p : Produto)
    (q preco : Int) (db2 : DB) (pid2 : Nat) (pnew : Produto)
    (hp : db.produtos vid = some p) (hq : 0 < q) (hpr : 0 ≤ preco)
    (hstock : q ≤ p.quantidade) :
    insertVenda ⟨some vid, q, preco⟩ db =
        .ok { db with
              produtos := setProduto db.produtos vid
                { p with quantidade := p.quantidade - q },
              vendas := db.vendas ++
                [⟨some vid, q, preco, q * preco,
                   some ((preco - p.preco_compra) * q)⟩] } ∧
      (applyOp db2 (.editProduto pid2 pnew)).vendas = db2.vendas := by
  constructor
  · simp only [insertVenda, hp]
    rw [if_neg (by omega), if_neg (by omega), if_neg (by omega)]
  · exact updateProduto_preserves_vendas db2 pid2 pnew

theorem sale_total_profit_at_commit_witness :
    insertVenda ⟨some 1, 5, 2000⟩
        ⟨fun n => if n = 1 then some ⟨10, 10, 1200, 2000, 1000⟩ else none, [], []⟩ =
        .ok { produtos := setProduto
                (fun n => if n = 1 then some ⟨10, 10, 1200, 2000, 1000⟩ else none)
                1 ⟨5, 10, 1200, 2000, 1000⟩,
              compras := [],
              vendas := [⟨some 1, 5, 2000, 10000, some 4000⟩] } ∧
      (applyOp ⟨fun _ => none, [], [⟨some 1, 5, 2000, 10000, some 4000⟩]⟩
          (.editProduto 1 ⟨10, 10, 1500, 2000, 1000⟩)).vendas =
        (⟨fun _ => none, [], [⟨some 1, 5, 2000, 10000, some 4000⟩]⟩ : DB).vendas := by
  have h := sale_total_profit_at_commit
    ⟨fun n => if n = 1 then some ⟨10, 10, 1200, 2000, 1000⟩ else none, [], []⟩
    1 ⟨10, 10, 1200, 2000, 1000⟩ 5 2000
    ⟨fun _ => none, [], [⟨some 1, 5, 2000, 10000, some 4000⟩]⟩
    1 ⟨10, 10, 1500, 2000, 1000⟩ (by simp) (by decide) (by decide) (by decide)
  exact ⟨by exact h.1, h.2⟩

/-- Claim C5: a sale with quantity 0 and a purchase with quantity 0 both
violate the rows' CHECK quantidade > 0 and are rejected as invalid input
(not silently accepted); and a sale whose quantity exactly equals the
on-hand stock passes the produtos CHECK with equality and commits,
driving the product's quantity to exactly 0. -/
theorem zero_quantity_invalid_and_exact_stock_ok (db : DB) (vid : Nat)
    (p : Produto) (q preco : Int) (hp : db.produtos vid = some p)
    (hwf : 0 ≤ p.quantidade) :
    insertVenda ⟨some vid, 0, preco⟩ db = .error .invalidInput ∧
      insertCompra ⟨some vid, none, 0, preco⟩ db = .error .invalidInput ∧
      (p.quantidade = q → 0 < q → 0 ≤ preco →
        insertVenda ⟨some vid, q, preco⟩ db =
          .ok { db with
                produtos := setProduto db.produtos vid
                  { p with quantidade := 0 },
                vendas := db.vendas ++
                  [⟨some vid, q, preco, q * preco,
                     some ((preco - p.preco_compra) * q)⟩] }) := by
  refine ⟨?_, ?_, ?_⟩
  · simp only [insertVenda, hp]
    rw [if_neg (by omega), if_pos (by omega)]
  · simp only [insertCompra]
    rw [if_pos (by omega)]
  · intro heq hq hpr
    simp only [insertVenda, hp]
    rw [if_neg (by omega), if_neg (by omega), if_neg (by omega)]
    have h0 : p.quantidade - q = 0 := by omega
    rw [h0]

theorem zero_quantity_invalid_and_exact_stock_ok_witness :
    insertVenda ⟨some 1, 0, 2000⟩
        ⟨fun n => if n = 1 then some ⟨5, 10, 1200, 2000, 1000⟩ else none, [], []⟩ =
        .error .invalidInput ∧
      insertCompra ⟨some 1, none, 0, 2000⟩
        ⟨fun n => if n = 1 then some ⟨5, 10, 1200, 2000, 1000⟩ else none, [], []⟩ =
        .error .invalidInput ∧
      insertVenda ⟨some 1, 5, 2000⟩
        ⟨fun n => if n = 1 then some ⟨5, 10, 1200, 2000, 1000⟩ else none, [], []⟩ =
        .ok { produtos := setProduto
                (fun n => if n = 1 then some ⟨5, 10, 1200, 2000, 1000⟩ else none)
                1 ⟨0, 10, 1200, 2000, 1000⟩,
              compras := [],
              vendas := [⟨some 1, 5, 2000, 10000, some 4000⟩] } := by
  have h := zero_quantity_invalid_and_exact_stock_ok
    ⟨fun n => if n = 1 then some ⟨5, 10, 1200, 2000, 1000⟩ else none, [], []⟩
    1 ⟨5, 10, 1200, 2000, 1000⟩ 5 2000 (by simp) (by decide)
  exact ⟨h.1, h.2.1, by exact h.2.2 (by decide) (by decide) (by decide)⟩

/-- Claim C6: a committed purchase (here with no supplier, which is legal:
fornecedor_id is nullable and the form marks it optional) increases the
referenced product's quantity by exactly the purchase quantity and
appends a compras row with the generated total = quantidade *
preco_unitario. -/
theorem purchase_increments_stock (db : DB) (vid : Nat) (p : Produto)
    (q preco : Int) (hp : db.produtos vid = some p) (hwf : 0 ≤ p.quantidade)
    (hq : 0 < q) (hpr : 0 ≤ preco) :
    insertCompra ⟨some vid, none, q, preco⟩ db =
      .ok { db with
            produtos := setProduto db.produtos vid
              { p with quantidade := p.quantidade + q },
            compras := db.compras ++ [⟨some vid, none, q, preco, q * preco⟩] } := by
  simp only [insertCompra, hp]
  rw [if_neg (by omega), if_neg (by omega), if_neg (by omega)]

theorem purchase_increments_stock_witness :
    insertCompra ⟨some 1, none, 7, 1200⟩
        ⟨fun n => if n = 1 then some ⟨5, 10, 1200, 2000, 1000⟩ else none, [], []⟩ =
      .ok { produtos := setProduto
              (fun n => if n = 1 then some ⟨5, 10, 1200, 2000, 1000⟩ else none)
              1 ⟨12, 10, 1200, 2000, 1000⟩,
            compras := [⟨some 1, none, 7, 1200, 8400⟩],
            vendas := [] } := by
  have h := purchase_increments_stock
    ⟨fun n => if n = 1 then some ⟨5, 10, 1200, 2000, 1000⟩ else none, [], []⟩
    1 ⟨5, 10, 1200, 2000, 1000⟩ 7 1200 (by simp) (by decide) (by decide)
    (by decide)
  exact h

theorem stockInv_compra (pid : Nat) (db : DB) (req : CompraReq)
    (hinv : StockInv pid db) : StockInv pid (applyOp db (.compra req)) := by
  by_cases hq : req.quantidade ≤ 0
  · have h1 : insertCompra req db = .error .invalidInput := by
      simp [insertCompra, hq]
    simp only [applyOp, step, h1]
    exact hinv
  by_cases hpr : req.preco_unitario < 0
  · have h1 : insertCompra req db = .error .invalidInput := by
      simp [insertCompra, hq, hpr]
    simp only [applyOp, step, h1]
    exact hinv
  cases hpid : req.produto_id with
  | none =>
    have h1 : insertCompra req db =
        .ok { db with compras := db.compras ++
                [⟨none, req.fornecedor_id, req.quantidade, req.preco_unitario,
                   req.quantidade * req.preco_unitario⟩] } := by
      simp [insertCompra, hq, hpr, hpid]
    simp only [applyOp, step, h1]
    intro p hp2
    obtain ⟨e1, e2⟩ := hinv p hp2
    rw [sumComprasProduto_append]
    simp only [sumComprasProduto]
    constructor <;> (try simp) <;> omega
  | some pid2 =>
    cases hlook : db.produtos pid2 with
    | none =>
      have h1 : insertCompra req db = .error .notFound := by
        simp [insertCompra, hq, hpr, hpid, hlook]
      simp only [applyOp, step, h1]
      exact hinv
    | some p2 =>
      by_cases hs : p2.quantidade + req.quantidade < 0
      · have h1 : insertCompra req db = .error .insufficientStock := by
          simp [insertCompra, hq, hpr, hpid, hlook, hs]
        simp only [applyOp, step, h1]
        exact hinv
      · have h1 : insertCompra req db =
            .ok { db with
                  produtos := setProduto db.produtos pid2
                    { p2 with quantidade := p2.quantidade + req.quantidade },
                  compras := db.compras ++
                    [⟨some pid2, req.fornecedor_id, req.quantidade,
                       req.preco_unitario,
                       req.quantidade * req.preco_unitario⟩] } := by
          simp [insertCompra, hq, hpr, hpid, hlook, hs]
        simp only [applyOp, step, h1]
        intro p hp2
        rw [sumComprasProduto_append]
        by_cases hpe : pid = pid2
        · subst hpe
          simp only [setProduto, if_pos rfl] at hp2
          obtain ⟨e1, e2⟩ := hinv p2 hlook
          obtain rfl : { p2 with quantidade := p2.quantidade + req.quantidade } = p :=
            Option.some.inj hp2
          simp only [sumComprasProduto]
          constructor <;> (try simp) <;> omega
        · have hpe2 : ¬(pid = pid2) := hpe
          simp only [setProduto, if_neg hpe2] at hp2
          obtain ⟨e1, e2⟩ := hinv p hp2
          have hne : ¬((some pid2 : Option Nat) = some pid) := by
            intro h
            exact hpe (Option.some.inj h).symm
          simp only [sumComprasProduto, if_neg hne]
          constructor <;> omega

theorem stockInv_venda (pid : Nat) (db : DB) (req : VendaReq)
    (hinv : StockInv pid db) : StockInv pid (applyOp db (.venda req)) := by
  cases hpid : req.produto_id with
  | none =>
    by_cases hq : req.quantidade ≤ 0
    · have h1 : insertVenda req db = .error .invalidInput := by
        simp [insertVenda, hpid, hq]
      simp only [applyOp, step, h1]
      exact hinv
    by_cases hpr : req.preco_unitario < 0
    · have h1 : insertVenda req db = .error .invalidInput := by
        simp [insertVenda, hpid, hq, hpr]
      simp only [applyOp, step, h1]
      exact hinv
    · have h1 : insertVenda req db =
          .ok { db with vendas := db.vendas ++
                  [⟨none, req.quantidade, req.preco_unitario,
                     req.quantidade * req.preco_unitario, none⟩] } := by
        simp [insertVenda, hpid, hq, hpr]
      simp only [applyOp, step, h1]
      intro p hp2
      obtain ⟨e1, e2⟩ := hinv p hp2
      rw [sumVendasProduto_append]
      simp only [sumVendasProduto]
      constructor <;> (try simp) <;> omega
  | some pid2 =>
    cases hlook : db.produtos pid2 with
    | none =>
      have h1 : applyOp db (.venda req) = db := by
        by_cases hq : req.quantidade ≤ 0
        · simp [applyOp, step, insertVenda, hpid, hlook, hq]
        by_cases hpr : req.preco_unitario < 0
        · simp [applyOp, step, insertVenda, hpid, hlook, hq, hpr]
        · simp [applyOp, step, insertVenda, hpid, hlook, hq, hpr]
      rw [h1]
      exact hinv
    | some p2 =>
      by_cases hs : p2.quantidade - req.quantidade < 0
      · have h1 : insertVenda req db = .error .insufficientStock := by
          simp [insertVenda, hpid, hlook, hs]
        simp only [applyOp, step, h1]
        exact hinv
      by_cases hq : req.quantidade ≤ 0
      · have h1 : insertVenda req db = .error .invalidInput := by
          simp [insertVenda, hpid, hlook, hs, hq]
        simp only [applyOp, step, h1]
        exact hinv
      by_cases hpr : req.preco_unitario < 0
      · have h1 : insertVenda req db = .error .invalidInput := by
          simp [insertVenda, hpid, hlook, hs, hq, hpr]
        simp only [applyOp, step, h1]
        exact hinv
      · have h1 : insertVenda req db =
            .ok { db with
                  produtos := setProduto db.produtos pid2
                    { p2 with quantidade := p2.quantidade - req.quantidade },
                  vendas := db.vendas ++
                    [⟨some pid2, req.quantidade, req.preco_unitario,
                       req.quantidade * req.preco_unitario,
                       some ((req.preco_unitario - p2.preco_compra) *
                         req.quantidade)⟩] } := by
          simp [insertVenda, hpid, hlook, hs, hq, hpr]
        simp only [applyOp, step, h1]
        intro p hp2
        rw [sumVendasProduto_append]
        by_cases hpe : pid = pid2
        · subst hpe
          simp only [setProduto, if_pos rfl] at hp2
          obtain ⟨e1, e2⟩ := hinv p2 hlook
          obtain rfl : { p2 with quantidade := p2.quantidade - req.quantidade } = p :=
            Option.some.inj hp2
          simp only [sumVendasProduto]
          constructor <;> (try simp) <;> omega
        · have hpe2 : ¬(pid = pid2) := hpe
          simp only [setProduto, if_neg hpe2] at hp2
          obtain ⟨e1, e2⟩ := hinv p hp2
          have hne : ¬((some pid2 : Option Nat) = some pid) := by
            intro h
            exact hpe (Option.some.inj h).symm
          simp only [sumVendasProduto, if_neg hne]
          constructor <;> omega

theorem stockInv_applyOp (pid : Nat) (db : DB) (op : Op)
    (hop : op.isEvent = true) (hinv : StockInv pid db) :
    StockInv pid (applyOp db op) := by
  cases op with
  | compra req => exact stockInv_compra pid db req hinv
  | venda req => exact stockInv_venda pid db req hinv
  | novoProduto pid2 p => simp [Op.isEvent] at hop
  | editProduto pid2 p => simp [Op.isEvent] at hop
  | removeProduto pid2 => simp [Op.isEvent] at hop

theorem stockInv_foldl (pid : Nat) (ops : List Op) :
    ∀ db, (∀ op ∈ ops, op.isEvent = true) → StockInv pid db →
      StockInv pid (ops.foldl applyOp db) := by
  induction ops with
  | nil => intro db _ h; exact h
  | cons op rest ih =>
    intro db hall hinv
    simp only [List.foldl_cons]
    exact ih (applyOp db op)
      (fun o ho => hall o (List.mem_cons_of_mem op ho))
      (stockInv_applyOp pid db op (hall op (List.mem_cons_self op rest)) hinv)

/-- Claim C2: starting from a product with quantity 0 and no committed
events for it, after every prefix of any sequence of purchase and sale
operations (each applied atomically, a failed one leaving the database
unchanged) the product's quantity equals the sum of its committed
purchase quantities minus the sum of its committed sale quantities, and
that value is non-negative. -/
theorem quantity_eq_purchases_minus_sales (db0 : DB) (pid : Nat)
    (p0 : Produto) (ops : List Op)
    (hops : ∀ op ∈ ops, op.isEvent = true)
    (hp : db0.produtos pid = some p0) (h0 : p0.quantidade = 0)
    (hc : sumComprasProduto pid db0.compras = 0)
    (hv : sumVendasProduto pid db0.vendas = 0) :
    ∀ l1 l2, ops = l1 ++ l2 →
      ∀ p, (l1.foldl applyOp db0).produtos pid = some p →
        p.quantidade =
            sumComprasProduto pid (l1.foldl applyOp db0).compras -
              sumVendasProduto pid (l1.foldl applyOp db0).vendas ∧
          0 ≤ p.quantidade := by
  intro l1 l2 hsplit
  have hall : ∀ op ∈ l1, op.isEvent = true := by
    intro op hmem
    exact hops op (by rw [hsplit]; exact List.mem_append_left l2 hmem)
  have hinv0 : StockInv pid db0 := by
    intro p hp2
    rw [hp] at hp2
    obtain rfl : p0 = p := Option.some.inj hp2
    rw [hc, hv, h0]
    exact ⟨by omega, by omega⟩
  exact stockInv_foldl pid l1 db0 hall hinv0

theorem quantity_eq_purchases_minus_sales_witness :
    (Produto.mk 2 10 1200 2000 1000).quantidade =
        sumComprasProduto 1
            (([Op.compra ⟨some 1, none, 5, 1200⟩,
               Op.venda ⟨some 1, 3, 2000⟩].foldl applyOp
              ⟨fun n => if n = 1 then some ⟨0, 10, 1200, 2000, 1000⟩ else none,
                [], []⟩)).compras -
          sumVendasProduto 1
            (([Op.compra ⟨some 1, none, 5, 1200⟩,
               Op.venda ⟨some 1, 3, 2000⟩].foldl applyOp
              ⟨fun n => if n = 1 then some ⟨0, 10, 1200, 2000, 1000⟩ else none,
                [], []⟩)).vendas ∧
      (0 : Int) ≤ (Produto.mk 2 10 1200 2000 1000).quantidade :=
  quantity_eq_purchases_minus_sales
    ⟨fun n => if n = 1 then some ⟨0, 10, 1200, 2000, 1000⟩ else none, [], []⟩
    1 ⟨0, 10, 1200, 2000, 1000⟩
    [Op.compra ⟨some 1, none, 5, 1200⟩, Op.venda ⟨some 1, 3, 2000⟩]
    (by decide) (by simp) rfl rfl rfl
    [Op.compra ⟨some 1, none, 5, 1200⟩, Op.venda ⟨some 1, 3, 2000⟩] []
    rfl (Produto.mk 2 10 1200 2000 1000) (by decide)

/-- Example state: one product with one committed purchase row
referencing it. -/
def dbCascadeEx : DB :=
  ⟨fun n => if n = 1 then some ⟨5, 10, 1200, 2000, 1000⟩ else none,
    [⟨some 1, none, 5, 1200, 6000⟩], []⟩

/-- Counterexample to claim C7 as stated: the foreign keys
compras.produto_id and vendas.produto_id are declared ON DELETE CASCADE,
so deleting product 1 (the Produtos page handleDelete path) also deletes
the committed purchase event that references it — the event log is not
insert-only and permanent under every operation. -/
theorem event_log_not_permanent_cex :
    (⟨some 1, none, 5, 1200, 6000⟩ : CompraRow) ∈ dbCascadeEx.compras ∧
      (⟨some 1, none, 5, 1200, 6000⟩ : CompraRow) ∉
        (applyOp dbCascadeEx (.removeProduto 1)).compras := by
  decide

/-- Claim C7 amended: committed compras and vendas rows are never updated
and survive, in place, every operation except product deletion: a ledger
insert only appends to the logs, and product creation and update leave
them untouched.  Product deletion is the exception — its ON DELETE
CASCADE removes the deleted product's event rows. -/
theorem insertCompra_ok_logs (req : CompraReq) (db db2 : DB)
    (h : insertCompra req db = .ok db2) :
    db2.compras.take db.compras.length = db.compras ∧ db2.vendas = db.vendas := by
  simp only [insertCompra] at h
  repeat' split at h
  all_goals first
    | (injection h with h2; subst h2;
        simp [take_left_of_append, take_self_of_length])
    | simp_all

theorem insertVenda_ok_logs (req : VendaReq) (db db2 : DB)
    (h : insertVenda req db = .ok db2) :
    db2.compras = db.compras ∧ db2.vendas.take db.vendas.length = db.vendas := by
  simp only [insertVenda] at h
  repeat' split at h
  all_goals first
    | (injection h with h2; subst h2;
        simp [take_left_of_append, take_self_of_length])
    | simp_all

theorem insertProduto_ok_logs (pid : Nat) (p : Produto) (db db2 : DB)
    (h : insertProduto pid p db = .ok db2) :
    db2.compras = db.compras ∧ db2.vendas = db.vendas := by
  simp only [insertProduto] at h
  repeat' split at h
  all_goals first
    | (injection h with h2; subst h2; simp)
    | simp_all

theorem updateProduto_ok_logs (pid : Nat) (p : Produto) (db db2 : DB)
    (h : updateProduto pid p db = .ok db2) :
    db2.compras = db.compras ∧ db2.vendas = db.vendas := by
  simp only [updateProduto] at h
  repeat' split at h
  all_goals first
    | (injection h with h2; subst h2; simp)
    | simp_all

theorem event_log_insert_only_without_cascade (db : DB) (op : Op)
    (h : op.isRemove = false) :
    ((applyOp db op).compras).take db.compras.length = db.compras ∧
      ((applyOp db op).vendas).take db.vendas.length = db.vendas := by
  cases op with
  | compra req =>
    cases hres : insertCompra req db with
    | ok db2 =>
      have hl := insertCompra_ok_logs req db db2 hres
      simp only [applyOp, step, hres]
      exact ⟨hl.1, by rw [hl.2]; exact take_self_of_length db.vendas⟩
    | error e =>
      simp only [applyOp, step, hres]
      exact ⟨take_self_of_length db.compras, take_self_of_length db.vendas⟩
  | venda req =>
    cases hres : insertVenda req db with
    | ok db2 =>
      have hl := insertVenda_ok_logs req db db2 hres
      simp only [applyOp, step, hres]
      exact ⟨by rw [hl.1]; exact take_self_of_length db.compras, hl.2⟩
    | error e =>
      simp only [applyOp, step, hres]
      exact ⟨take_self_of_length db.compras, take_self_of_length db.vendas⟩
  | novoProduto pid p =>
    cases hres : insertProduto pid p db with
    | ok db2 =>
      have hl := insertProduto_ok_logs pid p db db2 hres
      simp only [applyOp, step, hres]
      exact ⟨by rw [hl.1]; exact take_self_of_length db.compras,
        by rw [hl.2]; exact take_self_of_length db.vendas⟩
    | error e =>
      simp only [applyOp, step, hres]
      exact ⟨take_self_of_length db.compras, take_self_of_length db.vendas⟩
  | editProduto pid p =>
    cases hres : updateProduto pid p db with
    | ok db2 =>
      have hl := updateProduto_ok_logs pid p db db2 hres
      simp only [applyOp, step, hres]
      exact ⟨by rw [hl.1]; exact take_self_of_length db.compras,
        by rw [hl.2]; exact take_self_of_length db.vendas⟩
    | error e =>
      simp only [applyOp, step, hres]
      exact ⟨take_self_of_length db.compras, take_self_of_length db.vendas⟩
  | removeProduto pid => simp [Op.isRemove] at h

theorem event_log_insert_only_without_cascade_witness :
    ((applyOp dbCascadeEx (.compra ⟨some 1, none, 2, 1200⟩)).compras).take
        dbCascadeEx.compras.length = dbCascadeEx.compras ∧
      ((applyOp dbCascadeEx (.compra ⟨some 1, none, 2, 1200⟩)).vendas).take
        dbCascadeEx.vendas.length = dbCascadeEx.vendas :=
  event_log_insert_only_without_cascade dbCascadeEx
    (.compra ⟨some 1, none, 2, 1200⟩) rfl

/-- Example product rows for the update counterexample. -/
def produtoQuantidade5 : Produto := ⟨5, 10, 1200, 2000, 1000⟩

def produtoQuantidade7 : Produto := ⟨7, 10, 1200, 2000, 1000⟩

def dbEditEx : DB :=
  ⟨fun n => if n = 1 then some produtoQuantidade5 else none, [], []⟩

/-- Counterexample to claim C8 as stated: the product-management update
(Produtos page handleSubmit, update branch) sends the form's quantidade
along with every other field, so a reference-data update can change the
quantity: product 1 holds quantity 5, and after an edit submitting
quantity 7 it holds quantity 7. -/
theorem product_update_changes_quantity_cex :
    dbEditEx.produtos 1 = some produtoQuantidade5 ∧
      (applyOp dbEditEx (.editProduto 1 produtoQuantidade7)).produtos 1 =
        some produtoQuantidade7 ∧
      produtoQuantidade7.quantidade ≠ produtoQuantidade5.quantidade := by
  decide

/-- Claim C8 amended: the product-management update overwrites the stored
product with the submitted payload wholesale — quantidade included — so a
reference-data update preserves the quantity field only when the
submitted quantidade equals the stored one, not unconditionally. -/
theorem product_update_overwrites_quantity (db : DB) (pid : Nat)
    (pold pnew : Produto) (hp : db.produtos pid = some pold)
    (hv : produtoValido pnew = true) :
    (applyOp db (.editProduto pid pnew)).produtos pid = some pnew := by
  simp [applyOp, step, updateProduto, hv, hp, setProduto]

theorem product_update_overwrites_quantity_witness :
    (applyOp dbEditEx (.editProduto 1 produtoQuantidade7)).produtos 1 =
      some produtoQuantidade7 :=
  product_update_overwrites_quantity dbEditEx 1 produtoQuantidade5
    produtoQuantidade7 (by decide) (by decide)

end PharmLite
